import Mathlib

/-!
Shallow embedding of the core pipeline of the `business-data-scrape`
repository (website analyzer, task scheduler, cache layer, celery retry
driver, map-feed collector, CAPTCHA handler, contact extraction and the
keyword-submission route), together with proofs settling the frozen claims
about it.  Python dicts are modelled as association lists, `time.time()`
readings as rational numbers passed explicitly, network- and
browser-dependent results as explicit parameters, and raised exceptions as
`Except` values.
-/

namespace BDScrape

/-! ## Python value helpers -/

/-- Python `int(q)` on a float: truncation toward zero. -/
def pyInt (q : ℚ) : ℤ := if 0 ≤ q then ⌊q⌋ else ⌈q⌉

/-- Truthiness of an optional Python string: `None` and `""` are falsy. -/
def pyTruthyStr : Option String → Bool
  | none => false
  | some s => !(s == "")

/-- Python dict read: `d[k]` / `d.get(k)` over an association list. -/
def dictGet {K V : Type} [DecidableEq K] (d : List (K × V)) (k : K) : Option V :=
  (d.find? (fun p => p.1 == k)).map (fun p => p.2)

/-- Python dict write `d[k] = v`: one binding per key. -/
def dictSet {K V : Type} [DecidableEq K] (d : List (K × V)) (k : K) (v : V) :
    List (K × V) :=
  (k, v) :: d.filter (fun p => !(p.1 == k))

/-- Python `del d[k]`. -/
def dictDel {K V : Type} [DecidableEq K] (d : List (K × V)) (k : K) :
    List (K × V) :=
  d.filter (fun p => !(p.1 == k))

/-- Exceptions raised by the embedded Python code. -/
inductive PyError
  | attributeError (method : String)
  | nameError (name : String)
  | other (msg : String)
deriving DecidableEq

/-! ## Website analyzer (`src/app/services/analyzer.py`)

The analysis-result dict, restricted to the keys the composite-score,
grade and cache logic reads. A key absent from the dict is `none`. -/

structure AnalysisData where
  seo_score : Option ℚ := none
  security_score : Option ℚ := none
  performance_score : Option ℚ := none
  credibility_score : Option ℚ := none
  basic_score : Option ℚ := none
  overall_score : Option ℤ := none
  grade : Option String := none
deriving DecidableEq

/-- Weight table of `calculate_overall_score` (analyzer.py lines 405-411),
paired with the value the analysis dict holds for each component, in the
dict's iteration order. -/
def scoreComponents (d : AnalysisData) : List (Option ℚ × ℚ) :=
  [(d.seo_score, 0.25), (d.security_score, 0.20), (d.performance_score, 0.20),
   (d.credibility_score, 0.20), (d.basic_score, 0.15)]

/-- Embedding of `IntelligentWebsiteAnalyzer.calculate_overall_score`
(analyzer.py lines 403-425): sums `value * weight` and the weights of the
components present, then returns `min(100, int((total_score / total_weight)
* 100))` when any weight was accumulated, else `0`. -/
def calculate_overall_score (d : AnalysisData) : ℤ :=
  let comps := scoreComponents d
  let total_score : ℚ :=
    comps.foldl (fun acc c => match c.1 with | some v => acc + v * c.2 | none => acc) 0
  let total_weight : ℚ :=
    comps.foldl (fun acc c => match c.1 with | some _ => acc + c.2 | none => acc) 0
  if 0 < total_weight then min 100 (pyInt (total_score / total_weight * 100)) else 0

/-- The composite the claim describes: the weighted mean of the sub-scores
present, renormalized by the sum of the weights present, clamped to
[0,100]; `0` for an empty map.  Written from the spec's words, to compare
with `calculate_overall_score`. -/
def overall_score_claim (d : AnalysisData) : ℚ :=
  let comps := scoreComponents d
  let total_score : ℚ :=
    comps.foldl (fun acc c => match c.1 with | some v => acc + v * c.2 | none => acc) 0
  let total_weight : ℚ :=
    comps.foldl (fun acc c => match c.1 with | some _ => acc + c.2 | none => acc) 0
  if 0 < total_weight then min 100 (max 0 (total_score / total_weight)) else 0

/-- Modelled from the spec: `comprehensive_analysis` (analyzer.py line 50)
calls `self.assign_grade`, but no method of that name is defined anywhere in
the repository; the spec's grade table (section 4.4: at least 90 gives A+,
at least 80 gives A, 70 B, 60 C, 50 D, otherwise F) is the missing
definition. -/
def assign_grade (score : ℤ) : String :=
  if 90 ≤ score then "A+"
  else if 80 ≤ score then "A"
  else if 70 ≤ score then "B"
  else if 60 ≤ score then "C"
  else if 50 ≤ score then "D"
  else "F"

/-- Rank of a grade, for stating monotonicity: F < D < C < B < A < A+. -/
def gradeRank (g : String) : ℕ :=
  if g = "A+" then 5
  else if g = "A" then 4
  else if g = "B" then 3
  else if g = "C" then 2
  else if g = "D" then 1
  else 0

/-- Methods the class `IntelligentWebsiteAnalyzer` actually defines
(analyzer.py `def` lines).  `assign_grade`, `get_fallback_analysis` and the
per-pass helper methods the passes call appear nowhere in this list nor
anywhere else in the repository. -/
def analyzerMethodNames : List String :=
  ["__init__", "comprehensive_analysis", "basic_website_analysis",
   "technical_analysis", "seo_analysis", "security_analysis",
   "performance_analysis", "business_credibility_analysis",
   "calculate_overall_score", "analyze_ssl_certificate",
   "detect_technology_stack", "measure_load_time"]

/-- Implementation bound to the attribute `assign_grade` of the analyzer
object: analyzer.py line 50 calls `self.assign_grade(...)`, but the class
defines no such method (see `analyzerMethodNames`), so the lookup has
nothing to return and Python raises `AttributeError`. -/
def assign_grade_method : Option (ℤ → String) := none

/-- Implementation bound to the attribute `get_fallback_analysis`:
analyzer.py line 57 calls `self.get_fallback_analysis(url)` inside the
`except` branch, and no such method is defined either. -/
def get_fallback_analysis_method : Option (String → AnalysisData) := none

/-- State of one `IntelligentWebsiteAnalyzer` instance: `analysis_cache`
maps a url to the cached result dict and the `time.time()` stamp of the
write; `cache_timeout` is 3600 seconds (one hour). -/
structure AnalyzerState where
  analysis_cache : List (String × (AnalysisData × ℚ)) := []
  cache_timeout : ℚ := 3600
deriving DecidableEq

/-- Sequencing of the six `analysis_results.update(...)` calls of the try
block (analyzer.py lines 28-45): each pass either raises or updates the
accumulating dict; the first raise aborts the block. -/
def analysis_passes_fold
    (passes : List (Except PyError (AnalysisData → AnalysisData))) :
    Except PyError AnalysisData :=
  passes.foldl
    (fun acc p =>
      match acc, p with
      | .error e, _ => .error e
      | .ok _, .error e => .error e
      | .ok d, .ok f => .ok (f d))
    (.ok {})

/-- The try block of `comprehensive_analysis` (analyzer.py lines 28-53):
run the passes, store the composite under `overall_score`, then call
`self.assign_grade` — whose attribute lookup raises, `assign_grade_method`
being `none`. -/
def comprehensive_attempt
    (passes : List (Except PyError (AnalysisData → AnalysisData))) :
    Except PyError AnalysisData :=
  match analysis_passes_fold passes with
  | .error e => .error e
  | .ok d =>
    let score := calculate_overall_score d
    let d := { d with overall_score := some score }
    match assign_grade_method with
    | none => .error (.attributeError "assign_grade")
    | some g => .ok { d with grade := some (g score) }

/-- Embedding of `comprehensive_analysis` (analyzer.py lines 19-59).  A
fresh-enough cache entry is returned as is.  Otherwise the try block runs
(`comprehensive_attempt`); on success the result is written through to the
cache, and on an exception the handler calls `self.get_fallback_analysis` —
whose attribute lookup raises in turn, `get_fallback_analysis_method` being
`none`.  Returns the call's outcome and the state after the call. -/
def comprehensive_analysis (st : AnalyzerState) (now : ℚ) (url : String)
    (passes : List (Except PyError (AnalysisData → AnalysisData))) :
    Except PyError AnalysisData × AnalyzerState :=
  let fresh : Except PyError AnalysisData × AnalyzerState :=
    match comprehensive_attempt passes with
    | .ok d => (.ok d, { st with analysis_cache := dictSet st.analysis_cache url (d, now) })
    | .error _ =>
      match get_fallback_analysis_method with
      | none => (.error (.attributeError "get_fallback_analysis"), st)
      | some f => (.ok (f url), st)
  match dictGet st.analysis_cache url with
  | some (cached, ts) => if now - ts < st.cache_timeout then (.ok cached, st) else fresh
  | none => fresh

/-! ## Task scheduler (`src/app/services/scheduler.py`) -/

/-- A `SearchResult` row, restricted to the fields the scheduler reads.
`title` and `website` are optional strings; Python truthiness applies. -/
structure SResult where
  title : Option String
  website : Option String
deriving DecidableEq

/-- A `Keyword` row together with its prior `SearchResult` rows (the query
`SearchResult.query.filter_by(keyword_id=keyword.id).all()`). -/
structure KeywordRec where
  keyword : String
  previous_results : List SResult
deriving DecidableEq

/-- Embedding of `IntelligentScheduler.calculate_success_rate` (scheduler.py
lines 176-182): the fraction of results with a truthy title and website;
`0` for an empty list. -/
def calculate_success_rate (results : List SResult) : ℚ :=
  if results = [] then 0
  else
    ((results.filter (fun r => pyTruthyStr r.title && pyTruthyStr r.website)).length : ℚ)
      / (results.length : ℚ)

/-- Python `s.split()`: split on whitespace runs, dropping empty pieces. -/
def pyWordCount (s : String) : ℕ :=
  ((s.split Char.isWhitespace).filter (fun w => w ≠ "")).length

/-- Embedding of `calculate_keyword_adjustment` (scheduler.py lines 87-105):
`+2` when there are previous results and their success rate is below `0.5`,
then `-1` when the keyword has more than 3 words. -/
def calculate_keyword_adjustment (k : KeywordRec) : ℤ :=
  let adjustment : ℤ := 0
  let adjustment :=
    if k.previous_results ≠ [] ∧ calculate_success_rate k.previous_results < 0.5 then
      adjustment + 2
    else adjustment
  let adjustment := if 3 < pyWordCount k.keyword then adjustment - 1 else adjustment
  adjustment

/-- Embedding of `get_base_scraping_time` (scheduler.py lines 78-85):
`priority_times.get(priority, 4)`. -/
def get_base_scraping_time (priority : String) : ℤ :=
  if priority = "high" then 2
  else if priority = "medium" then 4
  else if priority = "low" then 6
  else 4

/-- Python `f"{n:02d}"` for the hour and minute values produced here
(both non-negative). -/
def format02 (n : ℤ) : String := (if n < 10 then "0" else "") ++ toString n

/-- Embedding of `calculate_optimal_time` (scheduler.py lines 65-76).
Python's built-in `hash` on strings is fixed within one interpreter
process; it is passed in as the parameter `strHash`.  Returns the
`f"{adjusted_hour:02d}:{random_minute:02d}"` string. -/
def calculate_optimal_time (strHash : String → ℤ) (k : KeywordRec)
    (priority : String) : String :=
  let base_hour := get_base_scraping_time priority
  let adjustment := calculate_keyword_adjustment k
  let adjusted_hour := Int.emod (base_hour + adjustment) 24
  let random_minute := Int.emod (strHash k.keyword) 60
  format02 adjusted_hour ++ ":" ++ format02 random_minute

/-- The claim's base-hour table, written from the claim's words: 2 for
high, 4 for medium, 6 for low. -/
def base_hour_claim (priority : String) : ℤ :=
  if priority = "high" then 2 else if priority = "medium" then 4 else 6

/-- The claim's adjustment, written from the claim's words: subtract 1 when
the keyword has more than 3 words, add 2 when the historical success rate
over prior runs is below 50%. -/
def adjustment_claim (k : KeywordRec) : ℤ :=
  (if 3 < pyWordCount k.keyword then -1 else 0)
    + (if k.previous_results ≠ [] ∧ calculate_success_rate k.previous_results < 1/2 then 2
       else 0)

/-! ## Cache layer (`src/optimization/__init__.py`, class `CacheManager`) -/

/-- State of one `CacheManager`: `local_cache` maps a key to
`(value, expiry)` with `expiry` an absolute `time.time()` value or `None`;
`redis` is `none` when Redis was unavailable at construction, otherwise a
store of `(value, expiry)` entries whose `expiry` is absolute (`setex`) or
`None` (plain `set`). -/
structure CacheState (K V : Type) where
  local_cache : List (K × (V × Option ℚ)) := []
  redis : Option (List (K × (V × Option ℚ))) := none

namespace CacheManager

/-- Redis-side read at time `now`: an entry whose TTL has elapsed is gone
(`GET` returns nil at and after the expiry instant). -/
def redisRead {K V : Type} [DecidableEq K] (r : List (K × (V × Option ℚ)))
    (now : ℚ) (k : K) : Option V :=
  match dictGet r k with
  | none => none
  | some (v, none) => some v
  | some (v, some e) => if now < e then some v else none

/-- Embedding of `CacheManager.get` (optimization lines 29-52): local hit
with live or absent expiry returns the value; an expired local entry is
deleted and the Redis tier is consulted; a truthy Redis value is copied
into the local cache for 300 seconds and returned; otherwise `None`.
`truthy` is Python truthiness on `V` (the `if value:` test). -/
def get {K V : Type} [DecidableEq K] (truthy : V → Bool) (st : CacheState K V)
    (now : ℚ) (k : K) : Option V × CacheState K V :=
  let fromRedis : CacheState K V → Option V × CacheState K V := fun st =>
    match st.redis with
    | none => (none, st)
    | some r =>
      match redisRead r now k with
      | some v =>
        if truthy v then
          (some v, { st with local_cache := dictSet st.local_cache k (v, some (now + 300)) })
        else (none, st)
      | none => (none, st)
  match dictGet st.local_cache k with
  | some (v, none) => (some v, st)
  | some (v, some e) =>
    if now < e then (some v, st)
    else fromRedis { st with local_cache := dictDel st.local_cache k }
  | none => fromRedis st

/-- Embedding of `CacheManager.set` (optimization lines 54-70): the local
entry gets expiry `now + expire_seconds` when `expire_seconds` is truthy and
`None` otherwise; the Redis tier, when available, gets `setex` with the same
TTL, or a plain `set` with no expiry when `expire_seconds` is falsy. -/
def set {K V : Type} [DecidableEq K] (st : CacheState K V) (now : ℚ) (k : K)
    (v : V) (expire_seconds : ℚ) : CacheState K V :=
  let expiry : Option ℚ := if expire_seconds ≠ 0 then some (now + expire_seconds) else none
  let st := { st with local_cache := dictSet st.local_cache k (v, expiry) }
  match st.redis with
  | none => st
  | some r => { st with redis := some (dictSet r k (v, expiry)) }

end CacheManager

/-! ## Celery retry driver (`src/tasks/scraping.py`, `scrape_keyword_task`)

The task is declared `@celery.task(bind=True, max_retries=3,
default_retry_delay=60)`.  Its body (lines 16-82): on an exception it sets
the keyword status to `error`, and then either re-raises via
`self.retry(exc=e)` when `self.request.retries < self.max_retries` — celery
re-runs the task after `default_retry_delay` seconds with `retries`
incremented — or sends a `send_system_alert` notification and returns a
`{'status': 'failed'}` dict. -/

/-- Observable outcome of running `scrape_keyword_task` to completion:
how many times the body ran, the retry delays slept between runs, the
returned `status` field, and how many system-alert notifications fired. -/
structure TaskOutcome where
  attempts : ℕ
  delays : List ℕ
  status : String
  alerts : ℕ
deriving DecidableEq

/-- Celery's retry loop, specialised to the body of `scrape_keyword_task`.
`fails i` tells whether the i-th run of the body raises (the scraping work
is external).  `retriesLeft` is `max_retries - self.request.retries`, so the
`self.request.retries < self.max_retries` test reads `0 < retriesLeft`. -/
def celery_exec (fails : ℕ → Bool) (delay : ℕ) : ℕ → ℕ → TaskOutcome
  | 0, i =>
    if fails i then { attempts := 1, delays := [], status := "failed", alerts := 1 }
    else { attempts := 1, delays := [], status := "completed", alerts := 0 }
  | n + 1, i =>
    if fails i then
      let rest := celery_exec fails delay n (i + 1)
      { attempts := rest.attempts + 1, delays := delay :: rest.delays,
        status := rest.status, alerts := rest.alerts }
    else { attempts := 1, delays := [], status := "completed", alerts := 0 }

/-- One full run of `scrape_keyword_task` under its declared options
`max_retries=3, default_retry_delay=60`, starting at `retries = 0`. -/
def scrape_keyword_task_run (fails : ℕ → Bool) : TaskOutcome :=
  celery_exec fails 60 3 0

/-! ## Incremental collector (`src/app/services/scraper.py`,
`scroll_and_collect`, lines 128-167) -/

/-- The rendered feed as the harness exposes it: `visible n` is what
`extract_visible_results` returns on the loop's n-th iteration, and
`height n` is the `scrollHeight` read after the n-th scroll. -/
structure Feed (Item : Type) where
  visible : ℕ → List Item
  height : ℕ → ℕ

/-- Embedding of the `while` loop of `scroll_and_collect`.  State: the step
index `n` (also the number of harness calls made so far), the accumulated
`results`, `last_height` and the `no_new_results_count` counter `cnt`.  One
iteration extracts the visible items, filters those already accumulated
(`r not in results`), appends the rest or bumps `cnt`, scrolls, reads the
new height, and bumps `cnt` again when the height did not change.  `fuel`
bounds the recursion; the loop's exit points return `(results, n)`. -/
def scroll_loop {Item : Type} [DecidableEq Item] (feed : Feed Item)
    (max_results : ℕ) :
    ℕ → ℕ → List Item → ℕ → ℕ → List Item × ℕ
  | 0, n, results, _, _ => (results, n)
  | fuel + 1, n, results, last_height, cnt =>
    if results.length < max_results ∧ cnt < 3 then
      let current_results := feed.visible n
      let new_results := current_results.filter (fun r => ¬ r ∈ results)
      let results := if new_results = [] then results else results ++ new_results
      let cnt := if new_results = [] then cnt + 1 else 0
      let new_height := feed.height n
      let cnt := if new_height = last_height then cnt + 1 else cnt
      scroll_loop feed max_results fuel (n + 1) results new_height cnt
    else (results, n)

/-- Embedding of `scroll_and_collect`: the loop from the initial state
(`results = []`, `last_height = 0`, `no_new_results_count = 0`), returning
`results[:max_results]` and the number of iterations (harness calls). -/
def scroll_and_collect {Item : Type} [DecidableEq Item] (feed : Feed Item)
    (max_results : ℕ) (fuel : ℕ) : List Item × ℕ :=
  let (results, steps) := scroll_loop feed max_results fuel 0 [] 0 0
  (results.take max_results, steps)

/-- The loop as the claim words it (written from the claim, to compare with
`scroll_loop`): stop when the target count is reached, or when "no new
items and no height change" has persisted for 3 consecutive steps — one
stall counter, incremented only when a step had both no new items and no
height change, reset otherwise. -/
def scroll_loop_claim {Item : Type} [DecidableEq Item] (feed : Feed Item)
    (max_results : ℕ) :
    ℕ → ℕ → List Item → ℕ → ℕ → List Item × ℕ
  | 0, n, results, _, _ => (results, n)
  | fuel + 1, n, results, last_height, stall =>
    if results.length < max_results ∧ stall < 3 then
      let current_results := feed.visible n
      let new_results := current_results.filter (fun r => ¬ r ∈ results)
      let results := results ++ new_results
      let new_height := feed.height n
      let stall :=
        if new_results = [] ∧ new_height = last_height then stall + 1 else 0
      scroll_loop_claim feed max_results fuel (n + 1) results new_height stall
    else (results, n)

/-- The claim-worded collector from the initial state. -/
def scroll_and_collect_claim {Item : Type} [DecidableEq Item]
    (feed : Feed Item) (max_results : ℕ) (fuel : ℕ) : List Item × ℕ :=
  let (results, steps) := scroll_loop_claim feed max_results fuel 0 [] 0 0
  (results.take max_results, steps)

/-! ## CAPTCHA handling (`src/app/services/scraper.py`, `handle_captcha`,
lines 75-87) -/

/-- Operations `handle_captcha` can perform on the browser session.
`solveCaptcha` is the automated-solving action the source never performs;
it is in the type so its absence from the trace is a statement about the
code. -/
inductive ScrAction
  | findElements
  | sleep (secs : ℕ)
  | solveCaptcha
deriving DecidableEq

/-- The browser environment `handle_captcha` observes: whether
`driver.find_elements` succeeds, and whether a CAPTCHA challenge marker is
present in the rendered text `t` seconds after entry. -/
structure CaptchaEnv where
  findElementsOk : Bool
  markerAt : ℕ → Bool

/-- Embedding of `handle_captcha`: one `find_elements` probe; on a marker,
`time.sleep(30)` and return `True`; no marker, return `False`; an exception
from the probe is caught and `False` returned.  The second component is the
trace of actions performed. -/
def handle_captcha (env : CaptchaEnv) : Bool × List ScrAction :=
  if env.findElementsOk then
    if env.markerAt 0 then (true, [.findElements, .sleep 30])
    else (false, [.findElements])
  else (false, [.findElements])

/-- Outcome the claim describes for a detected CAPTCHA. -/
inductive CaptchaOutcome
  | proceed
  | captchaBlocked
deriving DecidableEq

/-- The handler as the claim words it (written from the claim, to compare
with `handle_captcha`): on detection wait 30 seconds once, then proceed if
the marker is gone and report `CaptchaBlocked` if it persists. -/
def handle_captcha_claim (env : CaptchaEnv) : CaptchaOutcome :=
  if env.markerAt 0 then
    if env.markerAt 30 then .captchaBlocked else .proceed
  else .proceed

/-! ## Contact extraction (`src/app/services/scraper.py`,
`extract_contact_info`, lines 253-282) -/

/-- Module-level names that import statements of scraper.py bind (its lines
2-11).  `re` is not among them: the only `import re` in the file is local to
`extract_ratings` (line 241), so in `extract_contact_info` the name `re` is
unbound and evaluating `re.findall` raises `NameError`. -/
def scraperModuleImports : List String :=
  ["random", "time", "logging", "webdriver", "By", "WebDriverWait", "EC",
   "TimeoutException", "NoSuchElementException", "SearchResult", "Keyword",
   "get_random_delay", "rotate_user_agent"]

/-- One `re.findall` hit: a plain string when the pattern has at most one
group, a tuple of group strings when it has several. -/
abbrev PyMatch := String ⊕ List String

/-- The prioritized phone patterns of lines 261-265 and the address pattern
of line 274, as the source writes them. -/
def phone_patterns : List String :=
  ["(\\+?\\d\x7b1,2\x7d[-.\\s]?)?(\\(?\\d\x7b3\x7d\\)?[-.\\s]?)?\\d\x7b3\x7d[-.\\s]?\\d\x7b4\x7d",
   "(\\+?\\d\x7b1,2\x7d[-.\\s]?)?\\d\x7b5\x7d[-.\\s]?\\d\x7b5\x7d",
   "\\b\\d\x7b3\x7d[-.\\s]?\\d\x7b3\x7d[-.\\s]?\\d\x7b4\x7d\\b"]

/-- The address pattern of line 274. -/
def address_pattern : String :=
  "\\d+\\s+[\\w\\s]+,?\\s*\\w+[\\s\\w]*,?\\s*[A-Z]\x7b2\x7d\\s*\\d\x7b5\x7d"

/-- Contact fields `extract_contact_info` can populate. -/
structure ContactData where
  phone : Option String := none
  address : Option String := none
deriving DecidableEq

/-- Python `matches[0][0] if isinstance(matches[0], tuple) else matches[0]`. -/
def firstHit : PyMatch → String
  | .inl s => s
  | .inr groups => groups.headD ""

/-- Embedding of `extract_contact_info`.  The regex engine `re.findall` is
external and passed in as `findall : pattern → text → hits`; but scraper.py
never imports `re` at module level (see `scraperModuleImports`), so the
first `re.findall` call raises `NameError`, the `except` at line 279 logs
it, and the dict is returned with no field set.  The then-branch is the
extraction the source spells out: first matching phone pattern wins, then
the address pattern. -/
def extract_contact_info (findall : String → String → List PyMatch)
    (text : String) : ContactData :=
  if scraperModuleImports.contains "re" then
    let phone :=
      phone_patterns.foldl
        (fun acc pat =>
          match acc with
          | some p => some p
          | none =>
            match findall pat text with
            | [] => none
            | m :: _ => some (firstHit m))
        none
    let address :=
      match findall address_pattern text with
      | [] => none
      | m :: _ => some (firstHit m)
    { phone := phone, address := address }
  else { }

/-! ## Keyword submission (`src/app/routes/keywords.py`, `create_keyword`,
lines 17-31) -/

/-- A persisted `Keyword` row (models.py): `status` defaults to
`"pending"`. -/
structure KeywordRow where
  keyword : String
  status : String
deriving DecidableEq

/-- Embedding of the `POST /api/keywords` handler `create_keyword`.  The
request body is `none` when `request.get_json()` yields no object;
otherwise a dict.  `if not data or 'keyword' not in data` answers 400;
anything else constructs `Keyword(keyword=data['keyword'])`, commits it and
answers 201.  Returns the HTTP status and the table after the request. -/
def create_keyword (body : Option (List (String × String)))
    (db : List KeywordRow) : ℕ × List KeywordRow :=
  match body with
  | none => (400, db)
  | some data =>
    if data = [] then (400, db)
    else
      match dictGet data "keyword" with
      | none => (400, db)
      | some kw => (201, db ++ [{ keyword := kw, status := "pending" }])

/-! ## Shared helper lemmas -/

/-- Reading back the key just written into a Python dict. -/
theorem dictGet_set_self {K V : Type} [DecidableEq K] (d : List (K × V))
    (k : K) (v : V) : dictGet (dictSet d k v) k = some v := by
  simp [dictGet, dictSet]

/-- The try block of `comprehensive_analysis` never succeeds: either a pass
raises, or the undefined `assign_grade` attribute does. -/
theorem comprehensive_attempt_ne_ok
    (passes : List (Except PyError (AnalysisData → AnalysisData)))
    (d : AnalysisData) : comprehensive_attempt passes ≠ .ok d := by
  intro h
  unfold comprehensive_attempt at h
  cases hf : analysis_passes_fold passes <;>
    simp [hf, assign_grade_method] at h

/-! ## Claim theorems -/

/-- C1: the claim says `calculate_overall_score` returns the weighted mean
of the present sub-scores renormalized by the weights present.  It does
not: the code multiplies the already-0-to-100-scaled weighted mean by 100
before clamping, so a map holding only `seo_score = 50` — whose weighted
mean is 50 — comes back as 100. -/
theorem calculate_overall_score_inflates_mean :
    calculate_overall_score { seo_score := some 50 } = 100 ∧
    overall_score_claim { seo_score := some 50 } = 50 := by
  constructor <;>
    norm_num [calculate_overall_score, overall_score_claim, scoreComponents, pyInt]

/-- C2: the grade of a composite score follows the fixed table — at least
90 gives A+, at least 80 gives A, 70 B, 60 C, 50 D, anything below F — and
is a deterministic, monotone function of the score. -/
theorem assign_grade_table_monotone :
    (∀ s : ℤ,
      (90 ≤ s → assign_grade s = "A+") ∧
      (80 ≤ s ∧ s < 90 → assign_grade s = "A") ∧
      (70 ≤ s ∧ s < 80 → assign_grade s = "B") ∧
      (60 ≤ s ∧ s < 70 → assign_grade s = "C") ∧
      (50 ≤ s ∧ s < 60 → assign_grade s = "D") ∧
      (s < 50 → assign_grade s = "F")) ∧
    (∀ s t : ℤ, s ≤ t → gradeRank (assign_grade s) ≤ gradeRank (assign_grade t)) := by
  constructor
  · intro s
    refine ⟨?_, ?_, ?_, ?_, ?_, ?_⟩ <;>
      · intro h
        simp only [assign_grade]
        split_ifs <;> first | rfl | omega
  · intro s t hst
    simp only [assign_grade]
    split_ifs <;> first | decide | omega

/-- C3: a scraping job failing on every attempt runs exactly
`max_retries + 1 = 4` times, sleeps the fixed 60-second delay between
consecutive attempts, ends with status `failed`, and raises exactly one
system-alert notification. -/
theorem scrape_retry_ceiling (fails : ℕ → Bool) (h : ∀ i, fails i = true) :
    scrape_keyword_task_run fails =
      { attempts := 4, delays := [60, 60, 60], status := "failed", alerts := 1 } := by
  simp [scrape_keyword_task_run, celery_exec, h 0, h 1, h 2, h 3]

/-- Witness for C3 at the concrete always-failing job. -/
theorem scrape_retry_ceiling_witness :
    scrape_keyword_task_run (fun _ => true) =
      { attempts := 4, delays := [60, 60, 60], status := "failed", alerts := 1 } :=
  scrape_retry_ceiling (fun _ => true) (fun _ => rfl)

/-- C8: the claim says `extract_contact_info` extracts phone and address
via the first matching pattern.  It never does: scraper.py has no
module-level `import re` (the only one is local to `extract_ratings`), so
`re.findall` raises `NameError`, the `except` swallows it, and both fields
come back absent for every input text and every regex engine — also
contradicting the repository's own test `test_contact_info_extraction`. -/
theorem extract_contact_info_never_extracts
    (findall : String → String → List PyMatch) (text : String) :
    extract_contact_info findall text = { phone := none, address := none } := rfl

/-- C9: the claim says a submission with an empty keyword string is
rejected and never persisted.  It is not: `create_keyword` only rejects a
missing body or a missing `keyword` key, so `{"keyword": ""}` answers
HTTP 201 and commits a `Keyword` row with empty text and status
`pending`. -/
theorem create_keyword_empty_persisted_cex :
    create_keyword (some [("keyword", "")]) [] =
      (201, [{ keyword := "", status := "pending" }]) ∧
    (create_keyword (some [("keyword", "")]) []).2 ≠ [] := by
  constructor <;> decide

/-- C9 amended: `create_keyword` rejects with HTTP 400, persisting
nothing, exactly the submissions with no JSON body or no `keyword` key;
any submission carrying a `keyword` key — the empty string included — is
accepted with HTTP 201 and appends a pending `Keyword` row. -/
theorem create_keyword_validation (body : Option (List (String × String)))
    (db : List KeywordRow) :
    (body = none → create_keyword body db = (400, db)) ∧
    (∀ data, body = some data → dictGet data "keyword" = none →
      create_keyword body db = (400, db)) ∧
    (∀ data kw, body = some data → dictGet data "keyword" = some kw →
      create_keyword body db = (201, db ++ [{ keyword := kw, status := "pending" }])) := by
  refine ⟨?_, ?_, ?_⟩
  · rintro rfl; rfl
  · rintro data rfl h
    cases data with
    | nil => rfl
    | cons hd tl => simp [create_keyword, h]
  · rintro data kw rfl h
    cases data with
    | nil => simp [dictGet] at h
    | cons hd tl => simp [create_keyword, h]

/-- The sequentially-built adjustment of the scheduler equals the claim's
sum form. -/
theorem calculate_keyword_adjustment_eq (k : KeywordRec) :
    calculate_keyword_adjustment k = adjustment_claim k := by
  have h05 : (0.5 : ℚ) = 1 / 2 := by norm_num
  unfold calculate_keyword_adjustment adjustment_claim
  rw [h05]
  by_cases h1 : k.previous_results ≠ [] ∧ calculate_success_rate k.previous_results < 1 / 2 <;>
    by_cases h2 : 3 < pyWordCount k.keyword <;>
      simp [h1, h2] <;> ring

/-- C5: for the three named priorities, the optimal time is the string
`HH:MM` with hour `(base + adjustment) mod 24` — base 2/4/6 for
high/medium/low, adjustment `-1` for keywords over 3 words plus `+2` for a
sub-50% success rate over existing prior runs — and minute
`hash(keyword) mod 60`, a function of the keyword text alone; and two
calls with the same keyword text, history and priority return the
identical time. -/
theorem calculate_optimal_time_spec (strHash : String → ℤ) (k : KeywordRec)
    (priority : String)
    (hp : priority = "high" ∨ priority = "medium" ∨ priority = "low") :
    calculate_optimal_time strHash k priority =
      format02 (Int.emod (base_hour_claim priority + adjustment_claim k) 24) ++ ":" ++
        format02 (Int.emod (strHash k.keyword) 60) ∧
    (∀ (k2 : KeywordRec) (p2 : String), k2.keyword = k.keyword →
      k2.previous_results = k.previous_results → p2 = priority →
      calculate_optimal_time strHash k2 p2 = calculate_optimal_time strHash k priority) := by
  constructor
  · simp only [calculate_optimal_time]
    rw [calculate_keyword_adjustment_eq]
    rcases hp with rfl | rfl | rfl <;> rfl
  · rintro k2 p2 hkw hpr rfl
    have hk : k2 = k := by cases k2; cases k; simp_all
    rw [hk]

/-- Witness for C5 at the keyword "coffee shops in Denver" (4 words, no
history), priority high, with a concrete process hash. -/
theorem calculate_optimal_time_spec_witness :
    calculate_optimal_time (fun s => (s.length : ℤ))
        { keyword := "coffee shops in Denver", previous_results := [] } "high" =
      format02 (Int.emod (base_hour_claim "high" +
          adjustment_claim { keyword := "coffee shops in Denver", previous_results := [] }) 24)
        ++ ":" ++
        format02 (Int.emod (("coffee shops in Denver".length : ℤ)) 60) :=
  (calculate_optimal_time_spec (fun s => (s.length : ℤ))
    { keyword := "coffee shops in Denver", previous_results := [] } "high" (Or.inl rfl)).1

/-- Local-cache contents after a `CacheManager.set`. -/
theorem CacheManager.set_local_cache {K V : Type} [DecidableEq K]
    (st : CacheState K V) (now : ℚ) (k : K) (v : V) (e : ℚ) :
    (CacheManager.set st now k v e).local_cache =
      dictSet st.local_cache k (v, if e ≠ 0 then some (now + e) else none) := by
  rcases st with ⟨lc, rd⟩
  cases rd <;> rfl

/-- Redis contents after a `CacheManager.set`. -/
theorem CacheManager.set_redis {K V : Type} [DecidableEq K]
    (st : CacheState K V) (now : ℚ) (k : K) (v : V) (e : ℚ) :
    (CacheManager.set st now k v e).redis =
      st.redis.map (fun r => dictSet r k (v, if e ≠ 0 then some (now + e) else none)) := by
  rcases st with ⟨lc, rd⟩
  cases rd <;> rfl

/-- C6: with a positive TTL, a `get` immediately after `set(k, v, ttl)`
returns `v`, and a `get` at or after the TTL's expiry returns absent —
from both tiers — even though the entry may still be stored. -/
theorem cache_ttl_roundtrip {K V : Type} [DecidableEq K] (truthy : V → Bool)
    (st : CacheState K V) (now t2 : ℚ) (k : K) (v : V) (ttl : ℚ)
    (httl : 0 < ttl) (ht2 : now + ttl ≤ t2) :
    (CacheManager.get truthy (CacheManager.set st now k v ttl) now k).1 = some v ∧
    (CacheManager.get truthy (CacheManager.set st now k v ttl) t2 k).1 = none := by
  have hne : ttl ≠ 0 := ne_of_gt httl
  have hloc : (CacheManager.set st now k v ttl).local_cache =
      dictSet st.local_cache k (v, some (now + ttl)) := by
    rw [CacheManager.set_local_cache, if_pos hne]
  constructor
  · simp only [CacheManager.get, hloc, dictGet_set_self]
    rw [if_pos (by linarith : now < now + ttl)]
  · simp only [CacheManager.get, hloc, dictGet_set_self]
    rw [if_neg (by linarith : ¬ t2 < now + ttl)]
    have hred := CacheManager.set_redis st now k v ttl
    rw [if_pos hne] at hred
    cases hrd : st.redis with
    | none =>
      rw [hrd] at hred
      simp only [Option.map_none', hred]
    | some r =>
      rw [hrd] at hred
      simp only [Option.map_some', hred, CacheManager.redisRead, dictGet_set_self]
      rw [if_neg (by linarith : ¬ t2 < now + ttl)]

/-- Witness for C6: a concrete set-then-get round trip with TTL 10. -/
theorem cache_ttl_roundtrip_witness :
    (CacheManager.get (fun _ : String => true)
        (CacheManager.set ({ } : CacheState String String) 0 "k" "v" 10) 0 "k").1 =
      some "v" ∧
    (CacheManager.get (fun _ : String => true)
        (CacheManager.set ({ } : CacheState String String) 0 "k" "v" 10) 10 "k").1 =
      none :=
  cache_ttl_roundtrip (fun _ => true) { } 0 10 "k" "v" 10 (by norm_num) (by norm_num)

/-- C10: on any url whose cache entry is missing or at least
`cache_timeout` old, `comprehensive_analysis` ends in an exception —
whatever the six passes return, the undefined `assign_grade` (or an
earlier pass failure) lands in the `except` branch, whose
`get_fallback_analysis` is undefined too — and the analyzer's cache is
left exactly as it was, so the success-path cache write is never
reached. -/
theorem comprehensive_analysis_raises_on_fresh (st : AnalyzerState) (now : ℚ)
    (url : String)
    (passes : List (Except PyError (AnalysisData → AnalysisData)))
    (hfresh : ∀ d ts, dictGet st.analysis_cache url = some (d, ts) →
      st.cache_timeout ≤ now - ts) :
    comprehensive_analysis st now url passes =
      (.error (.attributeError "get_fallback_analysis"), st) := by
  have hfreshRun :
      (match comprehensive_attempt passes with
        | .ok d =>
          ((.ok d : Except PyError AnalysisData),
            { st with analysis_cache := dictSet st.analysis_cache url (d, now) })
        | .error _ =>
          match get_fallback_analysis_method with
          | none =>
            ((.error (.attributeError "get_fallback_analysis") :
              Except PyError AnalysisData), st)
          | some f => (.ok (f url), st)) =
      ((.error (.attributeError "get_fallback_analysis") :
        Except PyError AnalysisData), st) := by
    cases hca : comprehensive_attempt passes with
    | ok d => exact absurd hca (comprehensive_attempt_ne_ok passes d)
    | error e => rfl
  cases hc : dictGet st.analysis_cache url with
  | none =>
    simp only [comprehensive_analysis, hc]
    exact hfreshRun
  | some p =>
    obtain ⟨d, ts⟩ := p
    simp only [comprehensive_analysis, hc]
    rw [if_neg (not_lt.2 (hfresh d ts hc))]
    exact hfreshRun

/-- Witness for C10: a fresh analyzer, empty cache, all six passes
succeeding with no-op updates. -/
theorem comprehensive_analysis_raises_on_fresh_witness :
    comprehensive_analysis { } 0 "https://example.com"
        [.ok id, .ok id, .ok id, .ok id, .ok id, .ok id] =
      (.error (.attributeError "get_fallback_analysis"), { }) :=
  comprehensive_analysis_raises_on_fresh { } 0 "https://example.com"
    [.ok id, .ok id, .ok id, .ok id, .ok id, .ok id]
    (by intro d ts h; simp [dictGet] at h)

/-- A feed that never renders an item and whose height never changes. -/
def emptyFeed : Feed ℕ := { visible := fun _ => [], height := fun _ => 0 }

/-- The scroll loop returns as soon as its continue-condition fails,
whatever fuel remains. -/
theorem scroll_loop_done {Item : Type} [DecidableEq Item] (feed : Feed Item)
    (max_results fuel n : ℕ) (results : List Item) (last_height cnt : ℕ)
    (h : ¬ (results.length < max_results ∧ cnt < 3)) :
    scroll_loop feed max_results fuel n results last_height cnt = (results, n) := by
  cases fuel <;> simp [scroll_loop, h]

/-- One fully stalled step — nothing new visible and height unchanged —
bumps the counter twice and leaves the accumulated results untouched. -/
theorem scroll_loop_stalled_step {Item : Type} [DecidableEq Item]
    (feed : Feed Item) (max_results fuel n : ℕ) (results : List Item)
    (last_height cnt : ℕ)
    (hvis : ∀ x ∈ feed.visible n, x ∈ results)
    (hh : feed.height n = last_height)
    (hcond : results.length < max_results ∧ cnt < 3) :
    scroll_loop feed max_results (fuel + 1) n results last_height cnt =
      scroll_loop feed max_results fuel (n + 1) results last_height (cnt + 1 + 1) := by
  have hfil : (feed.visible n).filter (fun r => ¬ r ∈ results) = [] := by
    rw [List.filter_eq_nil_iff]
    intro a ha
    simpa using hvis a ha
  simp only [scroll_loop, if_pos hcond, hfil, hh]
  simp

/-- C4 counterexample: on the silent feed the loop's counter rises twice
per stalled step, so the loop makes only 2 harness calls, while stopping
only once "no new items and no height change" has persisted for 3
consecutive steps — as the claim words the stop condition — would take 3
calls; neither had the target of 10 results been reached. -/
theorem scroll_stop_condition_cex :
    (scroll_and_collect emptyFeed 10 10).2 = 2 ∧
    (scroll_and_collect_claim emptyFeed 10 10).2 = 3 ∧
    (scroll_and_collect emptyFeed 10 10).1.length < 10 := by
  refine ⟨by decide, by decide, by decide⟩

/-- C4 amended: the loop stops at whichever fires first of (a) the target
count reached or (b) the stall counter reaching 3, the counter gaining one
for a step with no new items and one more for an unchanged height; hence
once a feed stops producing new items and stops changing height, the loop
terminates within 2 further steps — in particular within 3 — with no
further harness calls, returning the results it had accumulated. -/
theorem scroll_stall_terminates {Item : Type} [DecidableEq Item]
    (feed : Feed Item) (max_results fuel k : ℕ) (results : List Item)
    (last_height cnt : ℕ)
    (hvis : ∀ n, k ≤ n → ∀ x ∈ feed.visible n, x ∈ results)
    (hh : ∀ n, k ≤ n → feed.height n = last_height) :
    ∃ m, scroll_loop feed max_results fuel k results last_height cnt = (results, m)
      ∧ m ≤ k + 2 := by
  match fuel with
  | 0 => exact ⟨k, rfl, by omega⟩
  | 1 =>
    by_cases hcond : results.length < max_results ∧ cnt < 3
    · rw [scroll_loop_stalled_step feed max_results 0 k results last_height cnt
        (hvis k le_rfl) (hh k le_rfl) hcond]
      exact ⟨k + 1, rfl, by omega⟩
    · rw [scroll_loop_done feed max_results 1 k results last_height cnt hcond]
      exact ⟨k, rfl, by omega⟩
  | f + 2 =>
    by_cases hcond : results.length < max_results ∧ cnt < 3
    · rw [scroll_loop_stalled_step feed max_results (f + 1) k results last_height cnt
        (hvis k le_rfl) (hh k le_rfl) hcond]
      by_cases hcond2 : results.length < max_results ∧ cnt + 1 + 1 < 3
      · rw [scroll_loop_stalled_step feed max_results f (k + 1) results last_height
          (cnt + 1 + 1) (hvis (k + 1) (by omega)) (hh (k + 1) (by omega)) hcond2]
        rw [scroll_loop_done feed max_results f (k + 2) results last_height
          (cnt + 1 + 1 + 1 + 1) (by omega)]
        exact ⟨k + 2, rfl, le_rfl⟩
      · rw [scroll_loop_done feed max_results (f + 1) (k + 1) results last_height
          (cnt + 1 + 1) hcond2]
        exact ⟨k + 1, rfl, by omega⟩
    · rw [scroll_loop_done feed max_results (f + 2) k results last_height cnt hcond]
      exact ⟨k, rfl, by omega⟩

/-- Witness for C4's amended theorem on the concrete silent feed. -/
theorem scroll_stall_terminates_witness :
    ∃ m, scroll_loop emptyFeed 10 10 0 [] 0 0 = ([], m) ∧ m ≤ 0 + 2 :=
  scroll_stall_terminates emptyFeed 10 10 0 [] 0 0
    (fun _ _ x hx => absurd hx (List.not_mem_nil x))
    (fun _ _ => rfl)

/-- An environment whose CAPTCHA marker persists through the wait. -/
def envPersist : CaptchaEnv := { findElementsOk := true, markerAt := fun _ => true }

/-- An environment whose CAPTCHA marker is gone once the 30-second wait
ends. -/
def envCleared : CaptchaEnv := { findElementsOk := true, markerAt := fun t => t == 0 }

/-- C7 counterexample: the claim requires the handler to proceed when the
marker is gone after the wait and report `CaptchaBlocked` when it
persists, so the two environments must end differently; `handle_captcha`
never re-checks after its sleep and behaves identically on both — and its
return type has no `CaptchaBlocked` outcome at all. -/
theorem handle_captcha_no_recheck_cex :
    handle_captcha envPersist = handle_captcha envCleared ∧
    handle_captcha_claim envPersist = CaptchaOutcome.captchaBlocked ∧
    handle_captcha_claim envCleared = CaptchaOutcome.proceed :=
  ⟨rfl, rfl, rfl⟩

/-- C7 amended: on detecting a marker `handle_captcha` sleeps exactly once
for 30 seconds and returns `true`; it never performs an automated-solving
action; and its result is fully determined by the probe's success and the
marker state at entry — the post-wait marker state is never consulted. -/
theorem handle_captcha_behavior (env : CaptchaEnv) :
    ((handle_captcha env).2.count (ScrAction.sleep 30) ≤ 1) ∧
    (ScrAction.solveCaptcha ∉ (handle_captcha env).2) ∧
    (env.findElementsOk = true → env.markerAt 0 = true →
      handle_captcha env = (true, [ScrAction.findElements, ScrAction.sleep 30])) ∧
    (∀ env2 : CaptchaEnv, env2.findElementsOk = env.findElementsOk →
      env2.markerAt 0 = env.markerAt 0 → handle_captcha env2 = handle_captcha env) := by
  refine ⟨?_, ?_, ?_, ?_⟩
  · unfold handle_captcha
    split_ifs <;> decide
  · unfold handle_captcha
    split_ifs <;> decide
  · intro hf hm
    simp [handle_captcha, hf, hm]
  · intro env2 he1 he2
    unfold handle_captcha
    rw [he1, he2]

end BDScrape
